import Mathlib

/-!
# Verification of the Deimos router service (`mcp-server/src/services/deimos.ts`)

Shallow embedding of the TypeScript router: credential resolution,
the routing request, the model-completion call, and the fallback path.
JavaScript `undefined`/missing values are modelled with `Option`;
JavaScript numbers appearing in the router (cost priorities, temperatures,
token limits, costs, confidences — all exact decimal constants) are
modelled as `ℚ`; thrown exceptions are modelled with `Except String`.
The external world (filesystem, environment variables, the two HTTP
endpoints) is a record of oracles `Env`, so every run of the embedded
code is a pure function of the environment.
-/

namespace Deimos

/-- JavaScript truthiness for an optional string: `undefined` and `""` are
falsy, every other string is truthy. -/
def truthy : Option String → Bool
  | some s => s ≠ ""
  | none => false

/-- `TaskType` enum from the source. -/
inductive TaskType where
  | analysis
  | summarization
  | code_generation
  | classification
  | extraction
deriving DecidableEq, Repr

/-- The string value carried by each `TaskType` enum member. -/
def TaskType.toStr : TaskType → String
  | .analysis => "analysis"
  | .summarization => "summarization"
  | .code_generation => "code_generation"
  | .classification => "classification"
  | .extraction => "extraction"

/-- `RoutingRequest` interface: optional fields are `Option`. -/
structure RoutingRequest where
  taskType : TaskType
  prompt : String
  context : Option String := none
  maxTokens : Option ℚ := none
  temperature : Option ℚ := none
  costPriority : Option ℚ := none
deriving DecidableEq, Repr

/-- `RoutingResponse` interface. The TypeScript type declares
`selectedModel : string`, but at runtime the field is copied from the
remote JSON's `selected_model`, which may be absent; the faithful runtime
type is therefore `Option String`. -/
structure RoutingResponse where
  selectedModel : Option String
  estimatedCost : ℚ
  confidence : ℚ
  reasoning : String
  response : String
deriving DecidableEq, Repr

/-- A parsed `secrets.json`: JSON parsing succeeded, but either field may
be absent from the object. -/
structure SecretsJson where
  api_url : Option String := none
  api_key : Option String := none
deriving DecidableEq, Repr

/-- The router instance's credential fields (`this.apiUrl`, `this.apiKey`). -/
structure Credentials where
  apiUrl : Option String := none
  apiKey : Option String := none
deriving DecidableEq, Repr

/-- Remote JSON body of a successful `POST /route` reply; every field may
be absent. -/
structure RouteResult where
  selected_model : Option String := none
  estimated_cost : Option ℚ := none
  confidence : Option ℚ := none
  reasoning : Option String := none
deriving DecidableEq, Repr

/-- Outcome of the `fetch` to the routing endpoint, as the code observes it:
a throw before any reply is decoded (network failure, or a body that is not
JSON), a reply that arrived with a non-success status, or a decoded JSON
reply. -/
inductive RouteCall where
  | throwBefore (err : String)
  | httpError (status : Nat) (body : String)
  | success (result : RouteResult)
deriving DecidableEq, Repr

/-- The JSON payload the code sends to `POST /route`. -/
structure RoutePayload where
  task_type : String
  prompt : String
  context : Option String
  cost_priority : ℚ
  max_tokens : Option ℚ
  temperature : Option ℚ
deriving DecidableEq, Repr

/-- The JSON payload the code sends to `POST /chat/completions`.
`messages` keeps the role/content pairs as built by the code; a field of
value `none` is dropped by `JSON.stringify` and so absent from the wire. -/
structure LLMPayload where
  model : Option String
  messages : List (String × String)
  max_tokens : Option ℚ
  temperature : Option ℚ
deriving DecidableEq, Repr

/-- Outcome of the `fetch` to the model-completion endpoint: a throw before
a reply is decoded, a non-success status, or a success whose decoded body
yields `choices[0].message.content`. -/
inductive LLMOutcome where
  | throwBefore (err : String)
  | httpError (status : Nat) (body : String)
  | success (content : String)
deriving DecidableEq, Repr

/-- The external world: the two `secrets.json` locations (`some s` iff the
file was readable and parsed as JSON), the two environment variables, and
the two HTTP endpoints as oracles on the exact payload sent. -/
structure Env where
  cwdSecrets : Option SecretsJson
  envUrl : Option String
  envKey : Option String
  homeSecrets : Option SecretsJson
  route : RoutePayload → RouteCall
  llm : LLMPayload → LLMOutcome

/-- The literal message of the error thrown when no credential source
succeeds (source lines 82–87). -/
def credentialsErrorMessage : String :=
  "Deimos API credentials not found. Please set up credentials via:\n" ++
  "1. secrets.json file in project root\n" ++
  "2. DEIMOS_API_URL and DEIMOS_API_KEY environment variables\n" ++
  "3. secrets.json file in home directory"

/-- `DeimosRouter.loadCredentials` (source lines 48–92): try the
`secrets.json` in the working directory, then the two environment
variables (both must be truthy), then the `secrets.json` in the home
directory; if all fail, throw `credentialsErrorMessage`. -/
def loadCredentials (env : Env) : Except String Credentials :=
  match env.cwdSecrets with
  | some s => .ok { apiUrl := s.api_url, apiKey := s.api_key }
  | none =>
    if truthy env.envUrl ∧ truthy env.envKey then
      .ok { apiUrl := env.envUrl, apiKey := env.envKey }
    else
      match env.homeSecrets with
      | some s => .ok { apiUrl := s.api_url, apiKey := s.api_key }
      | none => .error credentialsErrorMessage

/-- The payload construction inside `executeLLMCall` (source lines
166–185): the full prompt is framed with context only when `context` is
truthy; `max_tokens` is added under `if (maxTokens)` — a truthiness test,
so an explicit `0` is dropped; `temperature` is added under
`if (temperature !== undefined)` — a presence test, so an explicit `0` is
kept. -/
def buildLLMPayload (model : Option String) (prompt : String)
    (context : Option String) (maxTokens : Option ℚ)
    (temperature : Option ℚ) : LLMPayload :=
  let fullPrompt :=
    if truthy context then
      "Context: " ++ context.getD "" ++ "\n\nTask: " ++ prompt
    else
      prompt
  { model := model
    messages := [("user", fullPrompt)]
    max_tokens :=
      match maxTokens with
      | some t => if t ≠ 0 then some t else none
      | none => none
    temperature := temperature }

/-- `DeimosRouter.executeLLMCall` (source lines 159–205): build the
payload, call the completion endpoint; a non-success status throws an
error interpolating the status and raw body; on success return
`choices[0].message.content` verbatim. -/
def executeLLMCall (env : Env) (model : Option String) (prompt : String)
    (context : Option String) (maxTokens : Option ℚ)
    (temperature : Option ℚ) : Except String String :=
  match env.llm (buildLLMPayload model prompt context maxTokens temperature) with
  | .throwBefore err => .error err
  | .httpError status body =>
      .error ("LLM API error " ++ toString status ++ ": " ++ body)
  | .success content => .ok content

/-- `DeimosRouter.fallbackRequest` (source lines 207–219): one completion
attempt with the fixed model `gpt-3.5-turbo`; on any failure return the
placeholder built from the first 100 characters of the prompt. -/
def fallbackRequest (env : Env) (request : RoutingRequest) : String :=
  match executeLLMCall env (some "gpt-3.5-turbo") request.prompt
      request.context request.maxTokens request.temperature with
  | .ok s => s
  | .error _ =>
      "Error processing request: " ++ request.prompt.take 100 ++ "..."

/-- The payload construction inside `routeRequest` (source lines 99–108):
`cost_priority` defaults to `0.7` via `??` (nullish coalescing, so an
explicit `0` is kept). -/
def buildRoutePayload (request : RoutingRequest) : RoutePayload :=
  { task_type := request.taskType.toStr
    prompt := request.prompt
    context := request.context
    cost_priority := request.costPriority.getD 0.7
    max_tokens := request.maxTokens
    temperature := request.temperature }

/-- The catch block of `routeRequest` (source lines 146–156): a fixed
local decision — `gpt-3.5-turbo`, cost `0.001`, confidence `0.5` — with
the triggering error interpolated into the reasoning, and the body
produced by `fallbackRequest`. -/
def fallbackResponse (env : Env) (request : RoutingRequest)
    (err : String) : RoutingResponse :=
  { selectedModel := some "gpt-3.5-turbo"
    estimatedCost := 0.001
    confidence := 0.5
    reasoning := "Fallback due to routing error: " ++ err
    response := fallbackRequest env request }

/-- `DeimosRouter.routeRequest` (source lines 94–157). If either stored
credential field is falsy, credentials are reloaded — and a load failure
is thrown out of `routeRequest`, since the reload sits outside the
`try`/`catch`. Inside the `try`: call the routing endpoint; a non-success
status throws an error interpolating the status and raw body; on a decoded
reply,
execute the completion call with the reply's `selected_model` and build
the response with `??` defaults; any throw inside the `try` lands in the
catch block (`fallbackResponse`). -/
def routeRequest (env : Env) (state : Credentials)
    (request : RoutingRequest) : Except String RoutingResponse :=
  match (if truthy state.apiUrl ∧ truthy state.apiKey then .ok state
         else loadCredentials env : Except String Credentials) with
  | .error e => .error e
  | .ok _ =>
    match env.route (buildRoutePayload request) with
    | .throwBefore err => .ok (fallbackResponse env request err)
    | .httpError status body =>
        .ok (fallbackResponse env request
          ("Deimos API error " ++ toString status ++ ": " ++ body))
    | .success result =>
        match executeLLMCall env result.selected_model request.prompt
            request.context request.maxTokens request.temperature with
        | .error err => .ok (fallbackResponse env request err)
        | .ok llmResponse =>
            .ok { selectedModel := result.selected_model
                  estimatedCost := result.estimated_cost.getD 0
                  confidence := result.confidence.getD 1
                  reasoning :=
                    result.reasoning.getD "Model selected by Deimos Router"
                  response := llmResponse }

/-- `routeAnalysisRequest` (source lines 223–238): the request it builds.
The TypeScript default parameter `costPriority: number = 0.7` means an
omitted argument (modelled as `none`) becomes `0.7`. -/
def routeAnalysisRequestBuild (prompt : String) (context : Option String)
    (costPriority : Option ℚ) : RoutingRequest :=
  { taskType := .analysis
    prompt := prompt
    context := context
    costPriority := some (costPriority.getD 0.7)
    maxTokens := some 2000
    temperature := some 0.3 }

/-- `routeSummarizationRequest` (source lines 240–255): the request it
builds; default cost priority `0.8`. -/
def routeSummarizationRequestBuild (prompt : String)
    (context : Option String) (costPriority : Option ℚ) : RoutingRequest :=
  { taskType := .summarization
    prompt := prompt
    context := context
    costPriority := some (costPriority.getD 0.8)
    maxTokens := some 1000
    temperature := some 0.2 }

/-- `routeClassificationRequest` (source lines 257–272): the request it
builds; default cost priority `0.9`. -/
def routeClassificationRequestBuild (prompt : String)
    (context : Option String) (costPriority : Option ℚ) : RoutingRequest :=
  { taskType := .classification
    prompt := prompt
    context := context
    costPriority := some (costPriority.getD 0.9)
    maxTokens := some 500
    temperature := some 0.1 }

/-- `true` iff the first list is a prefix of the second. -/
def isPrefixL : List Char → List Char → Bool
  | [], _ => true
  | _ :: _, [] => false
  | a :: as, b :: bs => a = b && isPrefixL as bs

/-- `true` iff `pat` occurs as a contiguous sublist of the second list. -/
def containsL (pat : List Char) : List Char → Bool
  | [] => isPrefixL pat []
  | c :: t => isPrefixL pat (c :: t) || containsL pat t

/-- `true` iff `pat` occurs as a substring of `s`. -/
def containsSub (s pat : String) : Bool := containsL pat.data s.data

/-- Modelled from the spec: a `RoutingDecision` as produced by the Rule
Engine (spec section 4.2). No Rule Engine exists anywhere in the
repository's code; the spec alone describes it. -/
structure RuleDecision where
  selectedModel : String
  estimatedCost : ℚ
  confidence : ℚ
  reasoning : String
deriving DecidableEq, Repr

/-- Modelled from the spec: "a static per-model price table (price per 1K
tokens ...)". The spec names no concrete prices; representative values. -/
def modelPrice : String → ℚ
  | "cheapest-model" => 0.1
  | "low-cost-model" => 0.1
  | "cheap-fast-model" => 0.5
  | "mid-tier-model" => 1
  | "premium-model" => 5
  | "strong-general-model" => 8
  | "strong-reasoning-model" => 10
  | "high-quality-model" => 10
  | _ => 1

/-- Modelled from the spec: "estimated token count from prompt length". -/
def estimatedTokens (prompt : String) : ℚ := (prompt.length : ℚ) / 4

/-- Modelled from the spec: "price per 1K tokens × estimated token count
from prompt length". -/
def costEstimate (model : String) (prompt : String) : ℚ :=
  modelPrice model * estimatedTokens prompt / 1000

/-- Modelled from the spec: Layer 3's "fixed mapping from task type to a
default model". Of the code's task types, the spec's table covers
summarization and classification (both "cheap fast model"); the other
task types have no table entry, so the layer does not fire for them. -/
def taskTypeDefaultModel : TaskType → Option String
  | .summarization => some "cheap-fast-model"
  | .classification => some "cheap-fast-model"
  | _ => none

/-- Modelled from the spec: the Rule Engine, `classify(request) ->
RoutingDecision` (spec section 4.2) — absent from the repository's code.
Layer 1: best-effort code-pattern keyword detection keyed by language;
Layer 2: severity override; Layer 3: task-type table; Layer 4:
length-based bucket (thresholds 300/1500 from the spec's design notes).
Earlier layers take precedence; the first firing layer's choice is final;
each firing layer names its rule in the reasoning; confidence is 1.0 for
rule hits and 0.5 for the final length-bucket fallback. -/
def ruleEngineClassify (request : RoutingRequest) : RuleDecision :=
  let text := request.prompt ++ request.context.getD ""
  let hit := fun (model rule : String) =>
    RuleDecision.mk model (costEstimate model request.prompt) 1
      ("rule fired: " ++ rule)
  if containsSub text "def " ∨ containsSub text "import " ∨
      containsSub text "print(" then
    hit "strong-reasoning-model" "code-pattern detection (Python)"
  else if containsSub text "function " ∨ containsSub text "const " ∨
      containsSub text "=>" then
    hit "strong-general-model" "code-pattern detection (JavaScript/TypeScript)"
  else if containsSub text "fn " ∨ containsSub text "let mut " then
    hit "strong-reasoning-model" "code-pattern detection (Rust)"
  else if containsSub text "critical" then
    hit "high-quality-model" "cost-priority layer (critical severity)"
  else if containsSub text "low severity" ∧ request.prompt.length < 300 then
    hit "low-cost-model" "cost-priority layer (low severity, small effort)"
  else
    match taskTypeDefaultModel request.taskType with
    | some m => hit m "task-type table"
    | none =>
      let m :=
        if request.prompt.length < 300 then "cheapest-model"
        else if request.prompt.length < 1500 then "mid-tier-model"
        else "premium-model"
      RuleDecision.mk m (costEstimate m request.prompt) 0.5
        "rule fired: length-based fallback"

/-! ## Concrete environments and requests used to instantiate theorems -/

/-- Environment in which every credential source fails and every network
call fails. -/
def noCredsEnv : Env :=
  { cwdSecrets := none, envUrl := none, envKey := none, homeSecrets := none,
    route := fun _ => .throwBefore "fetch failed",
    llm := fun _ => .throwBefore "fetch failed" }

/-- A router state whose credential fields are already set and truthy. -/
def stateOk : Credentials :=
  { apiUrl := some "https://api.example.com", apiKey := some "test-key" }

/-- A minimal concrete request. -/
def reqHi : RoutingRequest := { taskType := .analysis, prompt := "hi" }

/-- The spec's section-8 scenario request: task type classification,
prompt "Is this spam?", cost priority 0.9. -/
def reqSpam : RoutingRequest :=
  { taskType := .classification, prompt := "Is this spam?",
    costPriority := some 0.9 }

/-- Environment where the routing endpoint answers HTTP 500 and the
completion endpoint is unreachable. -/
def env500 : Env :=
  { cwdSecrets := none, envUrl := none, envKey := none, homeSecrets := none,
    route := fun _ => .httpError 500 "Internal Server Error",
    llm := fun _ => .throwBefore "connect ECONNREFUSED" }

/-- Environment where the routing endpoint replies with JSON missing the
required `selected_model` field while the completion endpoint succeeds. -/
def envMissingModel : Env :=
  { cwdSecrets := none, envUrl := none, envKey := none, homeSecrets := none,
    route := fun _ => .success
      { selected_model := none, estimated_cost := some 0.02,
        confidence := some 0.9, reasoning := some "remote reasoning" },
    llm := fun _ => .success "llm says hi" }

/-- Environment where routing and completion both succeed. -/
def envAllOk : Env :=
  { cwdSecrets := none, envUrl := none, envKey := none, homeSecrets := none,
    route := fun _ => .success
      { selected_model := some "gpt-4", estimated_cost := some 0.012,
        confidence := some 0.92, reasoning := some "remote choice" },
    llm := fun _ => .success "the model reply" }

/-- Environment whose working-directory `secrets.json` parses but lacks
`api_url`, while the environment variables and the home file are all
available. -/
def cwdFileOnlyKeyEnv : Env :=
  { cwdSecrets := some { api_url := none, api_key := some "file-key" },
    envUrl := some "https://env.example.com", envKey := some "env-key",
    homeSecrets := some { api_url := some "https://home.example.com",
                          api_key := some "home-key" },
    route := fun _ => .throwBefore "fetch failed",
    llm := fun _ => .throwBefore "fetch failed" }

/-! ## Claim theorems -/

set_option maxRecDepth 16384 in
/-- **C6** (confirmed). Credential resolution tries the working-directory
secrets file, then the pair of environment variables (both required),
then the home-directory secrets file, first success winning; if all three
fail it throws the `CredentialsNotFound` message, and that message names
each of the three attempted sources. -/
theorem loadCredentials_resolution_order (env : Env) :
    (∀ s, env.cwdSecrets = some s →
      loadCredentials env = .ok { apiUrl := s.api_url, apiKey := s.api_key }) ∧
    (env.cwdSecrets = none → truthy env.envUrl = true → truthy env.envKey = true →
      loadCredentials env = .ok { apiUrl := env.envUrl, apiKey := env.envKey }) ∧
    (env.cwdSecrets = none →
      ¬(truthy env.envUrl = true ∧ truthy env.envKey = true) →
      ∀ s, env.homeSecrets = some s →
      loadCredentials env = .ok { apiUrl := s.api_url, apiKey := s.api_key }) ∧
    (env.cwdSecrets = none →
      ¬(truthy env.envUrl = true ∧ truthy env.envKey = true) →
      env.homeSecrets = none →
      loadCredentials env = .error credentialsErrorMessage) ∧
    (∃ a b, credentialsErrorMessage =
      a ++ ("secrets.json file in project root" ++ b)) ∧
    (∃ a b, credentialsErrorMessage =
      a ++ ("DEIMOS_API_URL and DEIMOS_API_KEY environment variables" ++ b)) ∧
    (∃ a b, credentialsErrorMessage =
      a ++ ("secrets.json file in home directory" ++ b)) := by
  refine ⟨?_, ?_, ?_, ?_, ?_, ?_, ?_⟩
  · intro s hs; simp [loadCredentials, hs]
  · intro h0 hu hk; simp [loadCredentials, h0, hu, hk]
  · intro h0 hek s hs
    simp only [loadCredentials, h0, hs]
    rw [if_neg hek]
  · intro h0 hek hh
    simp only [loadCredentials, h0, hh]
    rw [if_neg hek]
  · exact ⟨"Deimos API credentials not found. Please set up credentials via:\n1. ",
      "\n2. DEIMOS_API_URL and DEIMOS_API_KEY environment variables\n" ++
      "3. secrets.json file in home directory", by decide⟩
  · exact ⟨"Deimos API credentials not found. Please set up credentials via:\n" ++
      "1. secrets.json file in project root\n2. ",
      "\n3. secrets.json file in home directory", by decide⟩
  · exact ⟨"Deimos API credentials not found. Please set up credentials via:\n" ++
      "1. secrets.json file in project root\n" ++
      "2. DEIMOS_API_URL and DEIMOS_API_KEY environment variables\n3. ",
      "", by decide⟩

/-- Witness for C6: with both files absent and both variables unset,
resolution fails with the three-source message. -/
theorem loadCredentials_resolution_order_witness :
    loadCredentials noCredsEnv = .error credentialsErrorMessage :=
  (loadCredentials_resolution_order noCredsEnv).2.2.2.1 rfl (by decide) rfl

/-- **C9** (confirmed). If the working-directory secrets file is readable
and parses as JSON, resolution succeeds with exactly that file's fields —
even when `api_url` or `api_key` is absent (the field stays unset), with
no fall-through to the environment variables or the home file. -/
theorem loadCredentials_first_file_wins (env : Env) (s : SecretsJson)
    (h : env.cwdSecrets = some s) :
    loadCredentials env = .ok { apiUrl := s.api_url, apiKey := s.api_key } := by
  simp [loadCredentials, h]

/-- Witness for C9: the working-directory file lacks `api_url`; resolution
still stops there, leaving the URL unset although the environment
variables and the home file could have supplied one. -/
theorem loadCredentials_first_file_wins_witness :
    loadCredentials cwdFileOnlyKeyEnv =
      .ok { apiUrl := none, apiKey := some "file-key" } :=
  loadCredentials_first_file_wins cwdFileOnlyKeyEnv
    { api_url := none, api_key := some "file-key" } rfl

/-- Counterexample for C5: with max tokens explicitly given as zero, the
outbound payload omits `max_tokens` (the code guards it with a JavaScript
truthiness test), while a temperature of zero is kept. -/
theorem buildLLMPayload_zero_max_tokens_dropped :
    (buildLLMPayload (some "gpt-4") "Summarize this" none (some 0)
      (some 0)).max_tokens = none ∧
    (buildLLMPayload (some "gpt-4") "Summarize this" none (some 0)
      (some 0)).temperature = some 0 := by
  constructor <;> rfl

/-- **C5** (corrected). In the outbound completion payload, `temperature`
is included exactly when the caller provided it (an explicit zero is
kept), but `max_tokens` is included only when provided *and nonzero*: an
explicit zero is dropped by the truthiness guard. -/
theorem buildLLMPayload_optional_field_inclusion (model : Option String)
    (prompt : String) (context : Option String)
    (maxTokens temperature : Option ℚ) :
    (buildLLMPayload model prompt context maxTokens temperature).temperature =
      temperature ∧
    (maxTokens = none →
      (buildLLMPayload model prompt context maxTokens temperature).max_tokens =
        none) ∧
    (∀ t, maxTokens = some t → t ≠ 0 →
      (buildLLMPayload model prompt context maxTokens temperature).max_tokens =
        some t) ∧
    (maxTokens = some 0 →
      (buildLLMPayload model prompt context maxTokens temperature).max_tokens =
        none) := by
  refine ⟨rfl, ?_, ?_, ?_⟩
  · intro h; subst h; rfl
  · intro t ht h0; subst ht; simp [buildLLMPayload, h0]
  · intro h; subst h; simp [buildLLMPayload]

/-- Witness for C5's amended statement: a provided nonzero max-tokens value
is included. -/
theorem buildLLMPayload_optional_field_inclusion_witness :
    (buildLLMPayload (some "gpt-4") "Summarize this" none (some 100)
      (some 0)).max_tokens = some 100 :=
  (buildLLMPayload_optional_field_inclusion (some "gpt-4") "Summarize this"
    none (some 100) (some 0)).2.2.1 100 rfl (by norm_num)

/-- Counterexample for C7: a context that is present but empty yields the
bare prompt, not the framed string, so "framed whenever context is
present" fails at the empty string. -/
theorem buildLLMPayload_present_empty_context_unframed :
    (buildLLMPayload (some "gpt-4") "Fix the bug" (some "") none
      none).messages = [("user", "Fix the bug")] ∧
    ("Fix the bug" : String) ≠ "Context: " ++ "" ++ "\n\nTask: " ++ "Fix the bug" := by
  constructor
  · rfl
  · decide

/-- **C7** (corrected). The executor sends a single user-turn message:
its content is the bare prompt when context is absent or empty, and the
framed "Context/Task" string when context is present and non-empty; a
success reply's first-choice content is returned verbatim. -/
theorem executeLLMCall_single_message_and_verbatim (env : Env)
    (model : Option String) (prompt : String) (context : Option String)
    (maxTokens temperature : Option ℚ) :
    (context = none →
      (buildLLMPayload model prompt context maxTokens temperature).messages =
        [("user", prompt)]) ∧
    (∀ c, context = some c → c ≠ "" →
      (buildLLMPayload model prompt context maxTokens temperature).messages =
        [("user", "Context: " ++ c ++ "\n\nTask: " ++ prompt)]) ∧
    (∀ content,
      env.llm (buildLLMPayload model prompt context maxTokens temperature) =
        .success content →
      executeLLMCall env model prompt context maxTokens temperature =
        .ok content) := by
  refine ⟨?_, ?_, ?_⟩
  · intro h; subst h; rfl
  · intro c hc h0; subst hc; simp [buildLLMPayload, truthy, h0]
  · intro content h; simp [executeLLMCall, h]

/-- Witness for C7's amended statement: with a non-empty context the framed
message is sent, and the successful completion's content comes back
verbatim. -/
theorem executeLLMCall_single_message_and_verbatim_witness :
    (buildLLMPayload (some "gpt-4") "Fix the bug" (some "stack trace") none
      none).messages =
      [("user", "Context: stack trace\n\nTask: Fix the bug")] ∧
    executeLLMCall envAllOk (some "gpt-4") "Fix the bug" (some "stack trace")
      none none = .ok "the model reply" :=
  ⟨(executeLLMCall_single_message_and_verbatim envAllOk (some "gpt-4")
      "Fix the bug" (some "stack trace") none none).2.1 "stack trace" rfl
      (by decide),
   (executeLLMCall_single_message_and_verbatim envAllOk (some "gpt-4")
      "Fix the bug" (some "stack trace") none none).2.2 "the model reply" rfl⟩

/-- **C10** (confirmed). A context provided as the empty string is treated
as absent: the payload equals the no-context payload, and the single
message carries the bare prompt. -/
theorem buildLLMPayload_empty_context_as_absent (model : Option String)
    (prompt : String) (maxTokens temperature : Option ℚ) :
    buildLLMPayload model prompt (some "") maxTokens temperature =
      buildLLMPayload model prompt none maxTokens temperature ∧
    (buildLLMPayload model prompt (some "") maxTokens
      temperature).messages = [("user", prompt)] := by
  constructor <;> rfl

set_option maxRecDepth 16384 in
/-- Counterexample for C1: with every credential source unavailable,
`routeRequest` throws the `CredentialsNotFound` error past the public
boundary instead of returning a `RoutingResponse` — the reload sits
outside the `try`/`catch`. -/
theorem routeRequest_missing_credentials_throws :
    routeRequest noCredsEnv {} reqHi = .error credentialsErrorMessage := by
  rfl

/-- **C1** (corrected). Once credentials are resolved (both fields truthy),
`routeRequest` always returns a `RoutingResponse`, and its
`selectedModel` is non-empty provided any successful routing reply
carries a non-empty `selected_model`; when credential resolution fails,
however, the error escapes the entry point. -/
theorem routeRequest_total_with_resolved_credentials (env : Env)
    (state : Credentials) (request : RoutingRequest)
    (hu : truthy state.apiUrl = true) (hk : truthy state.apiKey = true)
    (hmodel : ∀ r, env.route (buildRoutePayload request) = .success r →
      ∃ m, r.selected_model = some m ∧ m ≠ "") :
    ∃ resp, routeRequest env state request = .ok resp ∧
      ∃ m, resp.selectedModel = some m ∧ m ≠ "" := by
  cases hroute : env.route (buildRoutePayload request) with
  | throwBefore e =>
    refine ⟨fallbackResponse env request e, ?_, "gpt-3.5-turbo", rfl, by decide⟩
    simp [routeRequest, hu, hk, hroute]
  | httpError s b =>
    refine ⟨fallbackResponse env request
      ("Deimos API error " ++ toString s ++ ": " ++ b), ?_, "gpt-3.5-turbo",
      rfl, by decide⟩
    simp [routeRequest, hu, hk, hroute]
  | success r =>
    obtain ⟨m, hm, hme⟩ := hmodel r hroute
    cases hexec : executeLLMCall env r.selected_model request.prompt
        request.context request.maxTokens request.temperature with
    | error e =>
      refine ⟨fallbackResponse env request e, ?_, "gpt-3.5-turbo", rfl,
        by decide⟩
      simp [routeRequest, hu, hk, hroute, hexec]
    | ok content =>
      refine ⟨{ selectedModel := r.selected_model,
                estimatedCost := r.estimated_cost.getD 0,
                confidence := r.confidence.getD 1,
                reasoning := r.reasoning.getD "Model selected by Deimos Router",
                response := content }, ?_, m, hm, hme⟩
      simp [routeRequest, hu, hk, hroute, hexec]

/-- Witness for C1's amended statement: resolved credentials and a
well-formed remote reply yield a response with a non-empty model. -/
theorem routeRequest_total_with_resolved_credentials_witness :
    ∃ resp, routeRequest envAllOk stateOk reqHi = .ok resp ∧
      ∃ m, resp.selectedModel = some m ∧ m ≠ "" :=
  routeRequest_total_with_resolved_credentials envAllOk stateOk reqHi
    (by decide) (by decide)
    (fun r hr => by
      injection hr with h
      exact ⟨"gpt-4", by rw [← h], by decide⟩)

set_option maxRecDepth 16384 in
/-- Counterexample for C2: on the spec's own scenario (classification,
"Is this spam?", cost priority 0.9), an HTTP-500 routing reply makes
`routeRequest` return the fixed fallback decision with confidence 0.5,
whereas the Rule Engine's task-type rule fires with confidence 1 — the
decisions differ. Moreover a reply missing `selected_model` is not
treated as a routing failure at all: the remote cost, confidence and
reasoning flow straight into the returned decision. -/
theorem routeRequest_http500_decision_ne_ruleEngine :
    routeRequest env500 stateOk reqSpam =
      .ok { selectedModel := some "gpt-3.5-turbo", estimatedCost := 0.001,
            confidence := 0.5,
            reasoning := "Fallback due to routing error: Deimos API error 500: Internal Server Error",
            response := "Error processing request: Is this spam?..." } ∧
    (ruleEngineClassify reqSpam).selectedModel = "cheap-fast-model" ∧
    (ruleEngineClassify reqSpam).confidence = 1 ∧
    (0.5 : ℚ) ≠ (ruleEngineClassify reqSpam).confidence ∧
    routeRequest envMissingModel stateOk reqSpam =
      .ok { selectedModel := none, estimatedCost := 0.02, confidence := 0.9,
            reasoning := "remote reasoning", response := "llm says hi" } := by
  refine ⟨rfl, rfl, rfl, ?_, rfl⟩
  have h : (ruleEngineClassify reqSpam).confidence = 1 := rfl
  rw [h]; norm_num

/-- **C2** (corrected). When the routing call throws or returns a
non-success HTTP status, `routeRequest` returns the fixed local fallback
decision — model `gpt-3.5-turbo`, cost 0.001, confidence 0.5 — whose
decision fields are independent of any remote data; only the reasoning
string interpolates the triggering error (and thereby the remote status
and body). This fixed decision is not the Rule Engine's per-request
decision. -/
theorem routeRequest_route_failure_fixed_local_decision (env : Env)
    (state : Credentials) (request : RoutingRequest)
    (hu : truthy state.apiUrl = true) (hk : truthy state.apiKey = true) :
    (∀ e, env.route (buildRoutePayload request) = .throwBefore e →
      routeRequest env state request =
        .ok { selectedModel := some "gpt-3.5-turbo", estimatedCost := 0.001,
              confidence := 0.5,
              reasoning := "Fallback due to routing error: " ++ e,
              response := fallbackRequest env request }) ∧
    (∀ status body,
      env.route (buildRoutePayload request) = .httpError status body →
      routeRequest env state request =
        .ok { selectedModel := some "gpt-3.5-turbo", estimatedCost := 0.001,
              confidence := 0.5,
              reasoning := "Fallback due to routing error: " ++
                ("Deimos API error " ++ toString status ++ ": " ++ body),
              response := fallbackRequest env request }) := by
  constructor
  · intro e h; simp [routeRequest, hu, hk, h, fallbackResponse]
  · intro s b h; simp [routeRequest, hu, hk, h, fallbackResponse]

set_option maxRecDepth 16384 in
/-- Witness for C2's amended statement at an HTTP-500 reply. -/
theorem routeRequest_route_failure_fixed_local_decision_witness :
    routeRequest env500 stateOk reqHi =
      .ok { selectedModel := some "gpt-3.5-turbo", estimatedCost := 0.001,
            confidence := 0.5,
            reasoning := "Fallback due to routing error: " ++
              ("Deimos API error " ++ toString 500 ++ ": " ++
                "Internal Server Error"),
            response := fallbackRequest env500 reqHi } :=
  (routeRequest_route_failure_fixed_local_decision env500 stateOk reqHi
    (by decide) (by decide)).2 500 "Internal Server Error" rfl

/-- Environment where routing succeeds but the completion endpoint is
unreachable, so both model attempts fail. -/
def envLLMFail : Env :=
  { cwdSecrets := none, envUrl := none, envKey := none, homeSecrets := none,
    route := fun _ => .success
      { selected_model := some "gpt-4", estimated_cost := some 0.012,
        confidence := some 0.92, reasoning := some "remote choice" },
    llm := fun _ => .throwBefore "connect ECONNREFUSED" }

/-- **C3** (confirmed). If the completion call fails for the selected
model and again for the fallback model, `routeRequest` still returns a
response whose `response` field is exactly
`"Error processing request: "` followed by the first at-most-100
characters of the original prompt and a terminating ellipsis. -/
theorem routeRequest_double_model_failure_placeholder (env : Env)
    (state : Credentials) (request : RoutingRequest) (r : RouteResult)
    (e1 e2 : String)
    (hu : truthy state.apiUrl = true) (hk : truthy state.apiKey = true)
    (hroute : env.route (buildRoutePayload request) = .success r)
    (h1 : executeLLMCall env r.selected_model request.prompt request.context
      request.maxTokens request.temperature = .error e1)
    (h2 : executeLLMCall env (some "gpt-3.5-turbo") request.prompt
      request.context request.maxTokens request.temperature = .error e2) :
    routeRequest env state request = .ok (fallbackResponse env request e1) ∧
    (fallbackResponse env request e1).response =
      "Error processing request: " ++ request.prompt.take 100 ++ "..." ∧
    (request.prompt.take 100).length ≤ 100 := by
  refine ⟨?_, ?_, ?_⟩
  · simp [routeRequest, hu, hk, hroute, h1]
  · simp [fallbackResponse, fallbackRequest, h2]
  · rw [String.take_eq]
    show (request.prompt.data.take 100).length ≤ 100
    simp [List.length_take]

set_option maxRecDepth 16384 in
/-- Witness for C3: both completion attempts fail; the placeholder
response is returned. -/
theorem routeRequest_double_model_failure_placeholder_witness :
    routeRequest envLLMFail stateOk reqHi =
      .ok (fallbackResponse envLLMFail reqHi "connect ECONNREFUSED") ∧
    (fallbackResponse envLLMFail reqHi "connect ECONNREFUSED").response =
      "Error processing request: " ++ ("hi" : String).take 100 ++ "..." :=
  ⟨(routeRequest_double_model_failure_placeholder envLLMFail stateOk reqHi
      { selected_model := some "gpt-4", estimated_cost := some 0.012,
        confidence := some 0.92, reasoning := some "remote choice" }
      "connect ECONNREFUSED" "connect ECONNREFUSED"
      (by decide) (by decide) rfl rfl rfl).1,
   (routeRequest_double_model_failure_placeholder envLLMFail stateOk reqHi
      { selected_model := some "gpt-4", estimated_cost := some 0.012,
        confidence := some 0.92, reasoning := some "remote choice" }
      "connect ECONNREFUSED" "connect ECONNREFUSED"
      (by decide) (by decide) rfl rfl rfl).2.1⟩

/-- **C4** (confirmed). Whatever fails in the route/execute sequence — a
routing throw, a non-success routing status, or a failing completion call
for the selected model — `routeRequest` returns the catch-block response,
and that response always carries the fixed fallback model
`gpt-3.5-turbo`, estimated cost 0.001, confidence 0.5, and a reasoning
string interpolating the triggering error. -/
theorem routeRequest_any_failure_degraded_fallback (env : Env)
    (state : Credentials) (request : RoutingRequest)
    (hu : truthy state.apiUrl = true) (hk : truthy state.apiKey = true) :
    (∀ e, env.route (buildRoutePayload request) = .throwBefore e →
      routeRequest env state request = .ok (fallbackResponse env request e)) ∧
    (∀ s b, env.route (buildRoutePayload request) = .httpError s b →
      routeRequest env state request = .ok (fallbackResponse env request
        ("Deimos API error " ++ toString s ++ ": " ++ b))) ∧
    (∀ r e, env.route (buildRoutePayload request) = .success r →
      executeLLMCall env r.selected_model request.prompt request.context
        request.maxTokens request.temperature = .error e →
      routeRequest env state request = .ok (fallbackResponse env request e)) ∧
    (∀ e, (fallbackResponse env request e).selectedModel =
        some "gpt-3.5-turbo" ∧
      (fallbackResponse env request e).estimatedCost = 0.001 ∧
      (fallbackResponse env request e).confidence = 0.5 ∧
      (fallbackResponse env request e).reasoning =
        "Fallback due to routing error: " ++ e) := by
  refine ⟨?_, ?_, ?_, ?_⟩
  · intro e h; simp [routeRequest, hu, hk, h]
  · intro s b h; simp [routeRequest, hu, hk, h]
  · intro r e h hx; simp [routeRequest, hu, hk, h, hx]
  · intro e; exact ⟨rfl, rfl, rfl, rfl⟩

set_option maxRecDepth 16384 in
/-- Witness for C4 at a network failure of the routing endpoint. -/
theorem routeRequest_any_failure_degraded_fallback_witness :
    routeRequest noCredsEnv stateOk reqHi =
      .ok (fallbackResponse noCredsEnv reqHi "fetch failed") ∧
    (fallbackResponse noCredsEnv reqHi "fetch failed").confidence = 0.5 :=
  ⟨(routeRequest_any_failure_degraded_fallback noCredsEnv stateOk reqHi
      (by decide) (by decide)).1 "fetch failed" rfl,
   ((routeRequest_any_failure_degraded_fallback noCredsEnv stateOk reqHi
      (by decide) (by decide)).2.2.2 "fetch failed").2.2.1⟩

/-- **C8** (confirmed). The convenience builders fix task type, token
limit and temperature (analysis: 2000 and 0.3; summarization: 1000 and
0.2; classification: 500 and 0.1) with per-entry-point default cost
priorities 0.7, 0.8 and 0.9 when the argument is omitted, and the routing
payload falls back to cost priority 0.7 when the request leaves it
unset. -/
theorem convenience_builders_fixed_fields_and_defaults (p : String)
    (c : Option String) (cpo : Option ℚ) (q : ℚ) (req : RoutingRequest) :
    (routeAnalysisRequestBuild p c cpo).taskType = .analysis ∧
    (routeAnalysisRequestBuild p c cpo).maxTokens = some 2000 ∧
    (routeAnalysisRequestBuild p c cpo).temperature = some 0.3 ∧
    (routeAnalysisRequestBuild p c none).costPriority = some 0.7 ∧
    (routeAnalysisRequestBuild p c (some q)).costPriority = some q ∧
    (routeSummarizationRequestBuild p c cpo).taskType = .summarization ∧
    (routeSummarizationRequestBuild p c cpo).maxTokens = some 1000 ∧
    (routeSummarizationRequestBuild p c cpo).temperature = some 0.2 ∧
    (routeSummarizationRequestBuild p c none).costPriority = some 0.8 ∧
    (routeSummarizationRequestBuild p c (some q)).costPriority = some q ∧
    (routeClassificationRequestBuild p c cpo).taskType = .classification ∧
    (routeClassificationRequestBuild p c cpo).maxTokens = some 500 ∧
    (routeClassificationRequestBuild p c cpo).temperature = some 0.1 ∧
    (routeClassificationRequestBuild p c none).costPriority = some 0.9 ∧
    (routeClassificationRequestBuild p c (some q)).costPriority = some q ∧
    (req.costPriority = none → (buildRoutePayload req).cost_priority = 0.7) ∧
    (req.costPriority = some q → (buildRoutePayload req).cost_priority = q) := by
  refine ⟨rfl, rfl, rfl, rfl, rfl, rfl, rfl, rfl, rfl, rfl, rfl, rfl, rfl,
    rfl, rfl, ?_, ?_⟩
  · intro h; simp [buildRoutePayload, h]
  · intro h; simp [buildRoutePayload, h]

/-- Witness for C8: an unset request-level cost priority yields 0.7 in the
routing payload, and the analysis builder defaults to 0.7. -/
theorem convenience_builders_fixed_fields_and_defaults_witness :
    (buildRoutePayload reqHi).cost_priority = 0.7 ∧
    (routeAnalysisRequestBuild "Analyze the logs" none none).costPriority =
      some 0.7 := by
  have h := convenience_builders_fixed_fields_and_defaults "Analyze the logs"
    none none 0 reqHi
  exact ⟨h.2.2.2.2.2.2.2.2.2.2.2.2.2.2.2.1 rfl, h.2.2.2.1⟩

end Deimos
